import Mathlib

/-!
Verification of the SEIRD epidemiology core (src/utils.py) against its
specification.  The Python functions `ode_model`, `ode_solver`,
`calculate_metrics` and `plot_daily_incidence` are shallowly embedded
over the rationals; the external `scipy.integrate.odeint` integrator is
an explicit function parameter of `ode_solver`, exactly as the Python
code passes it the derivative function, the initial state vector, the
time grid and the parameter tuple.
-/

/-- State vector of the SEIRD model: the five compartment values
(Susceptible, Exposed, Infected, Recovered, Deaths), matching the Python
list `z = [S, E, I, R, D]` unpacked by `utils.ode_model`. -/
structure SEIRDState where
  S : ℚ
  E : ℚ
  I : ℚ
  R : ℚ
  D : ℚ
  deriving DecidableEq, Repr, Inhabited

/-- Embedding of `utils.ode_model` (src/utils.py lines 12-20): unpacks the
state, recomputes `N = S + E + I + R + D` at the evaluation point, and
returns the five derivative components.  The time argument `t` is accepted
and ignored, as in the source.  Rational arithmetic stands in for Python
floats; Lean's total division returns 0 on a zero denominator where numpy
would produce NaN (see the `DegenerateModel` analysis). -/
def ode_model (z : SEIRDState) (t : ℚ) (beta sigma gamma mu : ℚ) : SEIRDState :=
  let N := z.S + z.E + z.I + z.R + z.D
  ⟨-beta * z.S * z.I / N,
   beta * z.S * z.I / N - sigma * z.E,
   sigma * z.E - gamma * z.I - mu * z.I,
   gamma * z.I,
   mu * z.I⟩

/-- Type of the external integrator (`scipy.integrate.odeint`) as
`utils.ode_solver` invokes it: it receives the derivative function, the
initial state vector, the time grid, and the `(beta, sigma, gamma, mu)`
argument tuple, and returns the sampled trajectory. -/
def OdeIntegrator : Type :=
  (SEIRDState → ℚ → ℚ → ℚ → ℚ → ℚ → SEIRDState) →
    SEIRDState → List ℚ → ℚ × ℚ × ℚ × ℚ → List SEIRDState

/-- Embedding of `utils.ode_solver` (src/utils.py lines 22-27): unpacks
`initial_conditions = (initE, initI, initR, initN, initD)` and
`params = (beta, sigma, gamma, mu)`, derives
`initS = initN - (initE + initI + initR + initD)`, and unconditionally
hands `ode_model` and the assembled initial state to the integrator.
The source performs no validation of any kind before integration. -/
def ode_solver (odeint : OdeIntegrator) (t : List ℚ)
    (initial_conditions : ℚ × ℚ × ℚ × ℚ × ℚ) (params : ℚ × ℚ × ℚ × ℚ) :
    List SEIRDState :=
  let initE := initial_conditions.1
  let initI := initial_conditions.2.1
  let initR := initial_conditions.2.2.1
  let initN := initial_conditions.2.2.2.1
  let initD := initial_conditions.2.2.2.2
  let initS := initN - (initE + initI + initR + initD)
  odeint ode_model ⟨initS, initE, initI, initR, initD⟩ t params

/-- Python runtime errors that `utils.calculate_metrics` can raise:
`ZeroDivisionError` from `beta / (gamma + mu)` when the denominator is the
float zero, `ValueError` from `max(I)` on an empty sequence, and
`IndexError` from `S[-1]` / `D[-1]` on an empty array. -/
inductive PyErr where
  | zeroDivisionError
  | valueError
  | indexError
  deriving DecidableEq, Repr

/-- The record returned by `utils.calculate_metrics` (the Python dict with
keys R0, Peak Infected, Peak Day, Attack Rate (%), Mortality Rate (%)). -/
structure Metrics where
  R0 : ℚ
  peakInfected : ℤ
  peakDay : ℕ
  attackRate : ℚ
  mortalityRate : ℚ
  deriving DecidableEq, Repr

/-- Maximum of a list of rationals; on a nonempty list this is the value
Python's builtin `max` returns (`calculate_metrics` line 46).  The `[]`
case is unreachable there because the empty case raises `ValueError`
first in the embedding. -/
def listMax : List ℚ → ℚ
  | [] => 0
  | [x] => x
  | x :: y :: ys => max x (listMax (y :: ys))

/-- Index of the first occurrence of the maximum, the value `np.argmax`
returns (`calculate_metrics` line 47): ties are broken toward the
earliest index because numpy keeps the first maximal element. -/
def np_argmax : List ℚ → ℕ
  | [] => 0
  | [_] => 0
  | x :: y :: ys => if listMax (y :: ys) ≤ x then 0 else np_argmax (y :: ys) + 1

/-- Python `int()` applied to a real value: truncation toward zero, as in
`int(peak_infected)` on line 57 of src/utils.py. -/
def pyInt (x : ℚ) : ℤ :=
  if 0 ≤ x then ⌊x⌋ else ⌈x⌉

/-- Round to the nearest integer with ties to the even integer, the tie
rule of Python's builtin `round`. -/
def roundHalfEven (x : ℚ) : ℤ :=
  let n := ⌊x⌋
  let r := x - n
  if r < 1 / 2 then n
  else if 1 / 2 < r then n + 1
  else if n % 2 = 0 then n else n + 1

/-- Python `round(x, d)`: round to `d` decimal places with ties to even,
as used on lines 59-60 of src/utils.py. -/
def pyRound (x : ℚ) (d : ℕ) : ℚ :=
  (roundHalfEven (x * 10 ^ d) : ℚ) / 10 ^ d

/-- Embedding of `utils.calculate_metrics` (src/utils.py lines 41-61), in
the source's evaluation order: `R0 = beta / (gamma + mu)` first (a Python
float division, which raises `ZeroDivisionError` on a zero denominator),
then `max(I)` and `np.argmax(I)` (a `ValueError` on an empty series), then
the attack rate from `S[-1]` and the mortality rate from `D[-1]` (an
`IndexError` on an empty array).  The `E` and `R` series are accepted and
never read, as in the source.  The division by `initN` is numpy float
division, which does not raise (it yields inf/NaN on zero, modelled by
Lean's total division returning 0); no claim exercises `initN = 0`. -/
def calculate_metrics (S E I R D : List ℚ) (beta gamma mu initN : ℚ) :
    Except PyErr Metrics :=
  if gamma + mu = 0 then .error .zeroDivisionError
  else
    let R0 := beta / (gamma + mu)
    if I = [] then .error .valueError
    else
      let peak_infected := listMax I
      let peak_day := np_argmax I
      if S = [] then .error .indexError
      else
        let attack_rate := (initN - S.getLastD 0) / initN * 100
        if D = [] then .error .indexError
        else
          let mortality_rate := D.getLastD 0 / initN * 100
          .ok ⟨R0, pyInt peak_infected, peak_day,
               pyRound attack_rate 2, pyRound mortality_rate 4⟩

/-- `np.diff`: successive differences, one entry fewer than the input. -/
def np_diff : List ℚ → List ℚ
  | [] => []
  | [_] => []
  | x :: y :: ys => (y - x) :: np_diff (y :: ys)

/-- Embedding of the data series computed by `utils.plot_daily_incidence`
(src/utils.py lines 63-68): from the solution matrix it extracts the `S`
and `D` columns and builds
`new_infections = np.diff(np.concatenate([[0], initN - S]))` and
`new_deaths = np.diff(np.concatenate([[0], D]))`.  The figure assembled
from these two series is presentation and is not modelled. -/
def plot_daily_incidence (sol : List SEIRDState) (initN : ℚ) :
    List ℚ × List ℚ :=
  let S := sol.map (fun r => r.S)
  let D := sol.map (fun r => r.D)
  let new_infections := np_diff (0 :: S.map (fun s => initN - s))
  let new_deaths := np_diff (0 :: D)
  (new_infections, new_deaths)

/-! ### Auxiliary lemmas about the list operations -/

theorem np_diff_length (l : List ℚ) : (np_diff l).length = l.length - 1 := by
  induction l with
  | nil => rfl
  | cons x xs ih =>
    cases xs with
    | nil => rfl
    | cons y ys =>
      simp only [np_diff, List.length_cons] at ih ⊢
      omega

theorem np_diff_getD (l : List ℚ) (k : ℕ) (h : k + 1 < l.length) :
    (np_diff l).getD k 0 = l.getD (k + 1) 0 - l.getD k 0 := by
  induction l generalizing k with
  | nil => simp at h
  | cons x xs ih =>
    cases xs with
    | nil => simp at h
    | cons y ys =>
      cases k with
      | zero => simp [np_diff]
      | succ k =>
        have hk : k + 1 < (y :: ys).length := by
          simp only [List.length_cons] at h ⊢; omega
        simpa [np_diff, List.getD_cons_succ] using ih k hk

theorem np_diff_sum (x : ℚ) (l : List ℚ) :
    (np_diff (x :: l)).sum = (x :: l).getLastD 0 - x := by
  induction l generalizing x with
  | nil => simp [np_diff]
  | cons y ys ih =>
    simp only [np_diff, List.sum_cons, ih y, List.getLastD_cons]
    ring

theorem getLastD_irrel {α : Type} (l : List α) (d e : α) (h : l ≠ []) :
    l.getLastD d = l.getLastD e := by
  cases l with
  | nil => exact absurd rfl h
  | cons a t => rw [List.getLastD_cons, List.getLastD_cons]

theorem getD_map_q (f : SEIRDState → ℚ) (l : List SEIRDState) (k : ℕ)
    (hk : k < l.length) :
    (l.map f).getD k 0 = f (l.getD k ⟨0, 0, 0, 0, 0⟩) := by
  induction l generalizing k with
  | nil => simp at hk
  | cons a t ih =>
    cases k with
    | zero => rfl
    | succ k =>
      have hk' : k < t.length := by simpa using hk
      simpa [List.getD_cons_succ] using ih k hk'

theorem getLastD_map_q (f : SEIRDState → ℚ) (l : List SEIRDState)
    (d : SEIRDState) : (l.map f).getLastD (f d) = f (l.getLastD d) := by
  induction l generalizing d with
  | nil => rfl
  | cons a t ih =>
    rw [List.map_cons, List.getLastD_cons, List.getLastD_cons]
    exact ih a

theorem getD_irrel {α : Type} (l : List α) (k : ℕ) (d e : α)
    (h : k < l.length) : l.getD k d = l.getD k e := by
  induction l generalizing k with
  | nil => simp at h
  | cons a t ih =>
    cases k with
    | zero => rfl
    | succ k => simpa [List.getD_cons_succ] using ih k (by simpa using h)

theorem getLastD_eq_getLast {α : Type} (l : List α) (d : α) (h : l ≠ []) :
    l.getLastD d = l.getLast h := by
  induction l generalizing d with
  | nil => exact absurd rfl h
  | cons a t ih =>
    cases t with
    | nil => rfl
    | cons b u =>
      rw [List.getLast_cons (by simp), List.getLastD_cons]
      exact ih a (by simp)

theorem le_listMax (l : List ℚ) (x : ℚ) (hx : x ∈ l) : x ≤ listMax l := by
  induction l with
  | nil => simp at hx
  | cons a t ih =>
    cases t with
    | nil =>
      simp only [List.mem_singleton] at hx
      simp [listMax, hx]
    | cons b u =>
      rcases List.mem_cons.mp hx with rfl | hmem
      · exact le_max_left _ _
      · exact le_trans (ih hmem) (le_max_right _ _)

theorem listMax_mem (l : List ℚ) (h : l ≠ []) : listMax l ∈ l := by
  induction l with
  | nil => exact absurd rfl h
  | cons a t ih =>
    cases t with
    | nil => simp [listMax]
    | cons b u =>
      rcases le_total (listMax (b :: u)) a with hle | hle
      · simp [listMax, max_eq_left hle]
      · have hmem := ih (by simp)
        rw [show listMax (a :: b :: u) = max a (listMax (b :: u)) from rfl,
          max_eq_right hle]
        exact List.mem_cons_of_mem a hmem

theorem np_argmax_spec (l : List ℚ) (h : l ≠ []) :
    np_argmax l < l.length ∧
    l.getD (np_argmax l) 0 = listMax l ∧
    ∀ j, j < np_argmax l → l.getD j 0 < listMax l := by
  induction l with
  | nil => exact absurd rfl h
  | cons x xs ih =>
    cases xs with
    | nil =>
      refine ⟨by simp [np_argmax], by simp [np_argmax, listMax], ?_⟩
      intro j hj
      simp [np_argmax] at hj
    | cons y ys =>
      have hmax : listMax (x :: y :: ys) = max x (listMax (y :: ys)) := rfl
      by_cases hx : listMax (y :: ys) ≤ x
      · have harg : np_argmax (x :: y :: ys) = 0 := by simp [np_argmax, hx]
        refine ⟨by simp [harg], ?_, ?_⟩
        · simp [harg, hmax, max_eq_left hx]
        · intro j hj
          simp [harg] at hj
      · push_neg at hx
        obtain ⟨hlen, hval, hfirst⟩ := ih (by simp)
        have harg : np_argmax (x :: y :: ys) = np_argmax (y :: ys) + 1 := by
          simp [np_argmax, not_le.mpr hx]
        have hmax' : listMax (x :: y :: ys) = listMax (y :: ys) := by
          rw [hmax, max_eq_right (le_of_lt hx)]
        refine ⟨?_, ?_, ?_⟩
        · simp only [harg, List.length_cons]
          simpa using hlen
        · simpa [harg, hmax', List.getD_cons_succ] using hval
        · intro j hj
          cases j with
          | zero => simpa [hmax'] using hx
          | succ j =>
            rw [harg] at hj
            have := hfirst j (by omega)
            simpa [hmax', List.getD_cons_succ] using this

/-! ### Claim theorems -/

/-- C1: the claim says `ode_solver` rejects an over-subscribed initial
population (E0+I0+R0+D0 > N) with an `InvalidInitialState` error before
integration.  The source has no such check: for the over-subscribed input
E0=10, I0=5, R0=0, N=10, D0=0 (compartments sum to 15 > 10), the solver
derives a negative initial Susceptible value 10 - (10+5+0+0) < 0 and
unconditionally hands it to the integrator; its return type has no error
alternative at all, so no `InvalidInitialState` failure can occur. -/
theorem ode_solver_no_oversubscription_check :
    (10 + 5 + 0 + 0 : ℚ) > 10 ∧ (10 : ℚ) - (10 + 5 + 0 + 0) < 0 ∧
    ∀ (odeint : OdeIntegrator) (t : List ℚ) (params : ℚ × ℚ × ℚ × ℚ),
      ode_solver odeint t (10, 5, 0, 10, 0) params =
        odeint ode_model ⟨10 - (10 + 5 + 0 + 0), 10, 5, 0, 0⟩ t params := by
  refine ⟨by norm_num, by norm_num, ?_⟩
  intro odeint t params
  rfl

/-- C4: the claim says the solver fails with `DegenerateModel` when the
total population is 0 (all compartment counts zero).  The source has no
such check: with E0=I0=R0=D0=N=0 it derives S0 = 0, the initial state is
all-zero (total population 0, so `ode_model` divides by zero; in numpy
this yields NaN that propagates), and the solver unconditionally hands
that state to the integrator; its return type has no error alternative,
so no `DegenerateModel` failure can occur. -/
theorem ode_solver_no_degenerate_check :
    ((0 : ℚ) + 0 + 0 + 0 + 0 = 0) ∧
    ∀ (odeint : OdeIntegrator) (t : List ℚ) (params : ℚ × ℚ × ℚ × ℚ),
      ode_solver odeint t (0, 0, 0, 0, 0) params =
        odeint ode_model ⟨0, 0, 0, 0, 0⟩ t params := by
  refine ⟨by norm_num, ?_⟩
  intro odeint t params
  have h0 : (0 : ℚ) - (0 + 0 + 0 + 0) = 0 := by norm_num
  calc ode_solver odeint t (0, 0, 0, 0, 0) params
      = odeint ode_model ⟨0 - (0 + 0 + 0 + 0), 0, 0, 0, 0⟩ t params := rfl
    _ = odeint ode_model ⟨0, 0, 0, 0, 0⟩ t params := by rw [h0]

/-- C5: for every state with nonzero total population, `ode_model`
returns exactly the five SEIRD derivative components, with N recomputed
from the state at the evaluation point, and the five components sum to
zero. -/
theorem ode_model_formula_sum_zero (z : SEIRDState) (t beta sigma gamma mu : ℚ)
    (h : z.S + z.E + z.I + z.R + z.D ≠ 0) :
    ode_model z t beta sigma gamma mu =
      ⟨-beta * z.S * z.I / (z.S + z.E + z.I + z.R + z.D),
       beta * z.S * z.I / (z.S + z.E + z.I + z.R + z.D) - sigma * z.E,
       sigma * z.E - gamma * z.I - mu * z.I,
       gamma * z.I,
       mu * z.I⟩ ∧
    (ode_model z t beta sigma gamma mu).S + (ode_model z t beta sigma gamma mu).E +
      (ode_model z t beta sigma gamma mu).I + (ode_model z t beta sigma gamma mu).R +
      (ode_model z t beta sigma gamma mu).D = 0 := by
  refine ⟨rfl, ?_⟩
  show -beta * z.S * z.I / (z.S + z.E + z.I + z.R + z.D) +
      (beta * z.S * z.I / (z.S + z.E + z.I + z.R + z.D) - sigma * z.E) +
      (sigma * z.E - gamma * z.I - mu * z.I) + gamma * z.I + mu * z.I = 0
  ring

/-- Witness for C5 at the concrete state (3, 1, 2, 0, 0) with t = 0 and
all four rates equal to 1. -/
theorem ode_model_formula_sum_zero_witness :
    ((3 : ℚ) + 1 + 2 + 0 + 0 ≠ 0) ∧
    (ode_model ⟨3, 1, 2, 0, 0⟩ 0 1 1 1 1 =
        ⟨-1 * 3 * 2 / (3 + 1 + 2 + 0 + 0),
         1 * 3 * 2 / (3 + 1 + 2 + 0 + 0) - 1 * 1,
         1 * 1 - 1 * 2 - 1 * 2,
         1 * 2,
         1 * 2⟩ ∧
      (ode_model ⟨3, 1, 2, 0, 0⟩ 0 1 1 1 1).S + (ode_model ⟨3, 1, 2, 0, 0⟩ 0 1 1 1 1).E +
        (ode_model ⟨3, 1, 2, 0, 0⟩ 0 1 1 1 1).I + (ode_model ⟨3, 1, 2, 0, 0⟩ 0 1 1 1 1).R +
        (ode_model ⟨3, 1, 2, 0, 0⟩ 0 1 1 1 1).D = 0) :=
  ⟨by norm_num, ode_model_formula_sum_zero ⟨3, 1, 2, 0, 0⟩ 0 1 1 1 1 (by norm_num)⟩

/-- C3: the claim says `calculate_metrics` signals R₀ with a tagged
"undefined" value when gamma + mu = 0.  The source instead evaluates
`beta / (gamma + mu)` as a Python float division, which raises
`ZeroDivisionError`: the call fails and no metrics record of any kind is
returned. -/
theorem calculate_metrics_zero_denominator_raises
    (S E I R D : List ℚ) (beta gamma mu initN : ℚ) (h : gamma + mu = 0) :
    calculate_metrics S E I R D beta gamma mu initN =
      Except.error PyErr.zeroDivisionError := by
  simp [calculate_metrics, h]

/-- Witness for C3 at gamma = 0, mu = 0, beta = 1/2 on a non-empty
trajectory. -/
theorem calculate_metrics_zero_denominator_raises_witness :
    ((0 : ℚ) + 0 = 0) ∧
    calculate_metrics [1] [] [1] [] [0] (1 / 2) 0 0 100000 =
      Except.error PyErr.zeroDivisionError :=
  ⟨by norm_num,
    calculate_metrics_zero_denominator_raises [1] [] [1] [] [0] (1 / 2) 0 0 100000
      (by norm_num)⟩

/-- C10: `calculate_metrics` never reads its Exposed and Recovered
arguments: replacing the E and R series by any other series leaves the
result unchanged. -/
theorem calculate_metrics_ignores_exposed_recovered
    (S I D E R E2 R2 : List ℚ) (beta gamma mu initN : ℚ) :
    calculate_metrics S E I R D beta gamma mu initN =
      calculate_metrics S E2 I R2 D beta gamma mu initN := rfl

/-- C6: whenever the rates are non-negative and gamma + mu > 0,
`calculate_metrics` succeeds on a non-empty trajectory and its R0 field
equals beta / (gamma + mu) exactly. -/
theorem calculate_metrics_R0_formula
    (S E I R D : List ℚ) (beta gamma mu initN : ℚ)
    (hbeta : 0 ≤ beta) (hgamma : 0 ≤ gamma) (hmu : 0 ≤ mu)
    (hgm : 0 < gamma + mu) (hI : I ≠ []) (hS : S ≠ []) (hD : D ≠ []) :
    ∃ m : Metrics, calculate_metrics S E I R D beta gamma mu initN = Except.ok m ∧
      m.R0 = beta / (gamma + mu) := by
  refine ⟨⟨beta / (gamma + mu), pyInt (listMax I), np_argmax I,
    pyRound ((initN - S.getLastD 0) / initN * 100) 2,
    pyRound (D.getLastD 0 / initN * 100) 4⟩, ?_, rfl⟩
  simp [calculate_metrics, hgm.ne', hI, hS, hD]

/-- Witness for C6 at beta = 1/2, gamma = 1/4, mu = 1/4 on a concrete
non-empty trajectory. -/
theorem calculate_metrics_R0_formula_witness :
    ((0 : ℚ) ≤ 1 / 2) ∧ ((0 : ℚ) ≤ 1 / 4) ∧ ((0 : ℚ) ≤ 1 / 4) ∧
    ((0 : ℚ) < 1 / 4 + 1 / 4) ∧
    (([1] : List ℚ) ≠ []) ∧ (([2] : List ℚ) ≠ []) ∧ (([0] : List ℚ) ≠ []) ∧
    ∃ m : Metrics,
      calculate_metrics [2] [] [1] [] [0] (1 / 2) (1 / 4) (1 / 4) 2 = Except.ok m ∧
        m.R0 = 1 / 2 / (1 / 4 + 1 / 4) :=
  ⟨by norm_num, by norm_num, by norm_num, by norm_num, by simp, by simp, by simp,
    calculate_metrics_R0_formula [2] [] [1] [] [0] (1 / 2) (1 / 4) (1 / 4) 2
      (by norm_num) (by norm_num) (by norm_num) (by norm_num)
      (by simp) (by simp) (by simp)⟩

/-- C7 counterexample: the claim says the returned peak infected count
equals the maximum of the Infected series, but the source applies
`int(...)` truncation to that maximum.  With I = [1/2] the maximum is
1/2 while the returned peak infected count is 0. -/
theorem calculate_metrics_peak_truncation_cex :
    calculate_metrics [1] [] [1 / 2] [] [0] 1 1 0 1 =
      Except.ok ⟨1, 0, 0, 0, 0⟩ ∧
    listMax [1 / 2] = 1 / 2 ∧ ((0 : ℤ) : ℚ) ≠ 1 / 2 := by
  refine ⟨?_, rfl, by norm_num⟩
  norm_num [calculate_metrics, listMax, np_argmax, pyInt, pyRound, roundHalfEven]

/-- C7 as amended: on a non-empty trajectory `calculate_metrics` returns
peak infected count equal to the maximum of the Infected series truncated
toward zero to an integer (Python `int()`), and peak day equal to the
first index achieving that maximum: the value at the peak day is the
maximum of the whole series and every earlier day is strictly below it. -/
theorem calculate_metrics_peak_properties
    (S E I R D : List ℚ) (beta gamma mu initN : ℚ)
    (hgm : gamma + mu ≠ 0) (hI : I ≠ []) (hS : S ≠ []) (hD : D ≠ []) :
    ∃ m : Metrics, calculate_metrics S E I R D beta gamma mu initN = Except.ok m ∧
      m.peakInfected = pyInt (listMax I) ∧
      listMax I ∈ I ∧ (∀ x ∈ I, x ≤ listMax I) ∧
      m.peakDay < I.length ∧
      I.getD m.peakDay 0 = listMax I ∧
      (∀ j, j < m.peakDay → I.getD j 0 < listMax I) := by
  obtain ⟨hlen, hval, hfirst⟩ := np_argmax_spec I hI
  refine ⟨⟨beta / (gamma + mu), pyInt (listMax I), np_argmax I,
    pyRound ((initN - S.getLastD 0) / initN * 100) 2,
    pyRound (D.getLastD 0 / initN * 100) 4⟩, ?_, rfl, listMax_mem I hI,
    fun x hx => le_listMax I x hx, hlen, hval, hfirst⟩
  simp [calculate_metrics, hgm, hI, hS, hD]

/-- Witness for C7 amended, on the Infected series [1/2, 2, 2, 1] whose
maximum 2 is first achieved at index 1. -/
theorem calculate_metrics_peak_properties_witness :
    ((1 : ℚ) + 0 ≠ 0) ∧ (([1 / 2, 2, 2, 1] : List ℚ) ≠ []) ∧
    (([1] : List ℚ) ≠ []) ∧ (([0] : List ℚ) ≠ []) ∧
    ∃ m : Metrics,
      calculate_metrics [1] [] [1 / 2, 2, 2, 1] [] [0] 1 1 0 1 = Except.ok m ∧
        m.peakInfected = pyInt (listMax [1 / 2, 2, 2, 1]) ∧
        listMax [1 / 2, 2, 2, 1] ∈ ([1 / 2, 2, 2, 1] : List ℚ) ∧
        (∀ x ∈ ([1 / 2, 2, 2, 1] : List ℚ), x ≤ listMax [1 / 2, 2, 2, 1]) ∧
        m.peakDay < ([1 / 2, 2, 2, 1] : List ℚ).length ∧
        ([1 / 2, 2, 2, 1] : List ℚ).getD m.peakDay 0 = listMax [1 / 2, 2, 2, 1] ∧
        (∀ j, j < m.peakDay →
          ([1 / 2, 2, 2, 1] : List ℚ).getD j 0 < listMax [1 / 2, 2, 2, 1]) :=
  ⟨by norm_num, by simp, by simp, by simp,
    calculate_metrics_peak_properties [1] [] [1 / 2, 2, 2, 1] [] [0] 1 1 0 1
      (by norm_num) (by simp) (by simp) (by simp)⟩

/-- C8: on a non-empty trajectory with positive population (and a defined
R₀, which the source computes first), `calculate_metrics` returns attack
rate `(N - S_final) / N * 100` rounded to 2 decimal places and mortality
rate `D_final / N * 100` rounded to 4 decimal places, where `S_final` and
`D_final` are the last entries of the Susceptible and Deaths series. -/
theorem calculate_metrics_rates_formula
    (S E I R D : List ℚ) (beta gamma mu initN : ℚ)
    (hgm : gamma + mu ≠ 0) (hI : I ≠ []) (hS : S ≠ []) (hD : D ≠ [])
    (hN : 0 < initN) :
    ∃ m : Metrics, calculate_metrics S E I R D beta gamma mu initN = Except.ok m ∧
      m.attackRate = pyRound ((initN - S.getLast hS) / initN * 100) 2 ∧
      m.mortalityRate = pyRound (D.getLast hD / initN * 100) 4 := by
  refine ⟨⟨beta / (gamma + mu), pyInt (listMax I), np_argmax I,
    pyRound ((initN - S.getLastD 0) / initN * 100) 2,
    pyRound (D.getLastD 0 / initN * 100) 4⟩, ?_, ?_, ?_⟩
  · simp [calculate_metrics, hgm, hI, hS, hD]
  · rw [getLastD_eq_getLast S 0 hS]
  · rw [getLastD_eq_getLast D 0 hD]

/-- Witness for C8 on the trajectory S = [4, 1], D = [0, 1] with N = 2:
attack rate (2 - 1)/2·100 = 50, mortality rate 1/2·100 = 50. -/
theorem calculate_metrics_rates_formula_witness :
    ((1 : ℚ) + 0 ≠ 0) ∧ (([1] : List ℚ) ≠ []) ∧
    (([4, 1] : List ℚ) ≠ []) ∧ (([0, 1] : List ℚ) ≠ []) ∧ ((0 : ℚ) < 2) ∧
    ∃ m : Metrics,
      calculate_metrics [4, 1] [] [1] [] [0, 1] 1 1 0 2 = Except.ok m ∧
        m.attackRate = pyRound ((2 - ([4, 1] : List ℚ).getLast (by simp)) / 2 * 100) 2 ∧
        m.mortalityRate = pyRound (([0, 1] : List ℚ).getLast (by simp) / 2 * 100) 4 :=
  ⟨by norm_num, by simp, by simp, by simp, by norm_num,
    calculate_metrics_rates_formula [4, 1] [] [1] [] [0, 1] 1 1 0 2
      (by norm_num) (by simp) (by simp) (by simp) (by norm_num)⟩

/-- C2 counterexample: the claim says the incidence computation produces
exactly n - 1 entries for a trajectory sampled on n days.  For the 2-day
trajectory S = [8, 5] (with N = 10) the source's
`np.diff(np.concatenate([[0], initN - S]))` produces 2 entries, not 1:
the prepended 0 makes the day-0 cumulative count an extra first entry. -/
theorem plot_daily_incidence_length_cex :
    (plot_daily_incidence [⟨8, 0, 1, 1, 0⟩, ⟨5, 0, 2, 2, 1⟩] 10).1.length ≠ 1 ∧
    (plot_daily_incidence [⟨8, 0, 1, 1, 0⟩, ⟨5, 0, 2, 2, 1⟩] 10).1.length = 2 := by
  constructor <;> norm_num [plot_daily_incidence, np_diff]

/-- C2 as amended: for a trajectory on n ≥ 2 days the incidence series
have exactly n entries each (one per grid day, not n - 1).  Entry 0
reports `initN - S[0]` new infections and `D[0]` new deaths (the day-0
cumulative counts, produced by the prepended 0), and entry k for
1 ≤ k ≤ n - 1 reports `S[k-1] - S[k]` new infections and `D[k] - D[k-1]`
new deaths, as the claim states for those days. -/
theorem plot_daily_incidence_entries
    (sol : List SEIRDState) (initN : ℚ) (k : ℕ)
    (h1 : 1 ≤ k) (h2 : k < sol.length) :
    (plot_daily_incidence sol initN).1.length = sol.length ∧
    (plot_daily_incidence sol initN).2.length = sol.length ∧
    (plot_daily_incidence sol initN).1.getD 0 0 =
      initN - (sol.getD 0 ⟨0, 0, 0, 0, 0⟩).S ∧
    (plot_daily_incidence sol initN).2.getD 0 0 = (sol.getD 0 ⟨0, 0, 0, 0, 0⟩).D ∧
    (plot_daily_incidence sol initN).1.getD k 0 =
      (sol.getD (k - 1) ⟨0, 0, 0, 0, 0⟩).S - (sol.getD k ⟨0, 0, 0, 0, 0⟩).S ∧
    (plot_daily_incidence sol initN).2.getD k 0 =
      (sol.getD k ⟨0, 0, 0, 0, 0⟩).D - (sol.getD (k - 1) ⟨0, 0, 0, 0, 0⟩).D := by
  obtain ⟨j, rfl⟩ : ∃ j, k = j + 1 := ⟨k - 1, by omega⟩
  have hS1 : (plot_daily_incidence sol initN).1 =
      np_diff (0 :: sol.map (fun r => initN - r.S)) := by
    show np_diff (0 :: (sol.map (fun r => r.S)).map (fun s => initN - s)) = _
    rw [List.map_map]
    rfl
  have hD1 : (plot_daily_incidence sol initN).2 =
      np_diff (0 :: sol.map (fun r => r.D)) := rfl
  have hlenS : (0 :: sol.map (fun r => initN - r.S)).length = sol.length + 1 := by
    simp
  have hlenD : (0 :: sol.map (fun r => r.D)).length = sol.length + 1 := by simp
  refine ⟨?_, ?_, ?_, ?_, ?_, ?_⟩
  · rw [hS1, np_diff_length, hlenS]; omega
  · rw [hD1, np_diff_length, hlenD]; omega
  · rw [hS1, np_diff_getD _ 0 (by rw [hlenS]; omega)]
    simp only [List.getD_cons_succ, List.getD_cons_zero]
    rw [getD_map_q (fun r => initN - r.S) sol 0 (by omega)]
    simp
  · rw [hD1, np_diff_getD _ 0 (by rw [hlenD]; omega)]
    simp only [List.getD_cons_succ, List.getD_cons_zero]
    rw [getD_map_q (fun r => r.D) sol 0 (by omega)]
    simp
  · rw [hS1, np_diff_getD _ (j + 1) (by rw [hlenS]; omega)]
    simp only [List.getD_cons_succ, Nat.add_sub_cancel]
    rw [getD_map_q (fun r => initN - r.S) sol (j + 1) (by omega),
      getD_map_q (fun r => initN - r.S) sol j (by omega)]
    ring
  · rw [hD1, np_diff_getD _ (j + 1) (by rw [hlenD]; omega)]
    simp only [List.getD_cons_succ, Nat.add_sub_cancel]
    rw [getD_map_q (fun r => r.D) sol (j + 1) (by omega),
      getD_map_q (fun r => r.D) sol j (by omega)]

/-- Witness for C2 amended at the 2-day trajectory S = [8, 5],
D = [0, 1], N = 10, entry k = 1. -/
theorem plot_daily_incidence_entries_witness :
    (1 ≤ 1) ∧ (1 < ([⟨8, 0, 1, 1, 0⟩, ⟨5, 0, 2, 2, 1⟩] : List SEIRDState).length) ∧
    ((plot_daily_incidence [⟨8, 0, 1, 1, 0⟩, ⟨5, 0, 2, 2, 1⟩] 10).1.length =
      ([⟨8, 0, 1, 1, 0⟩, ⟨5, 0, 2, 2, 1⟩] : List SEIRDState).length ∧
    (plot_daily_incidence [⟨8, 0, 1, 1, 0⟩, ⟨5, 0, 2, 2, 1⟩] 10).2.length =
      ([⟨8, 0, 1, 1, 0⟩, ⟨5, 0, 2, 2, 1⟩] : List SEIRDState).length ∧
    (plot_daily_incidence [⟨8, 0, 1, 1, 0⟩, ⟨5, 0, 2, 2, 1⟩] 10).1.getD 0 0 =
      10 - (([⟨8, 0, 1, 1, 0⟩, ⟨5, 0, 2, 2, 1⟩] : List SEIRDState).getD 0 ⟨0, 0, 0, 0, 0⟩).S ∧
    (plot_daily_incidence [⟨8, 0, 1, 1, 0⟩, ⟨5, 0, 2, 2, 1⟩] 10).2.getD 0 0 =
      (([⟨8, 0, 1, 1, 0⟩, ⟨5, 0, 2, 2, 1⟩] : List SEIRDState).getD 0 ⟨0, 0, 0, 0, 0⟩).D ∧
    (plot_daily_incidence [⟨8, 0, 1, 1, 0⟩, ⟨5, 0, 2, 2, 1⟩] 10).1.getD 1 0 =
      (([⟨8, 0, 1, 1, 0⟩, ⟨5, 0, 2, 2, 1⟩] : List SEIRDState).getD 0 ⟨0, 0, 0, 0, 0⟩).S -
        (([⟨8, 0, 1, 1, 0⟩, ⟨5, 0, 2, 2, 1⟩] : List SEIRDState).getD 1 ⟨0, 0, 0, 0, 0⟩).S ∧
    (plot_daily_incidence [⟨8, 0, 1, 1, 0⟩, ⟨5, 0, 2, 2, 1⟩] 10).2.getD 1 0 =
      (([⟨8, 0, 1, 1, 0⟩, ⟨5, 0, 2, 2, 1⟩] : List SEIRDState).getD 1 ⟨0, 0, 0, 0, 0⟩).D -
        (([⟨8, 0, 1, 1, 0⟩, ⟨5, 0, 2, 2, 1⟩] : List SEIRDState).getD 0 ⟨0, 0, 0, 0, 0⟩).D) :=
  ⟨le_refl 1, by simp,
    plot_daily_incidence_entries [⟨8, 0, 1, 1, 0⟩, ⟨5, 0, 2, 2, 1⟩] 10 1
      (le_refl 1) (by simp)⟩

/-- C9 counterexample: the claim says the cumulative sum of the produced
new-infection values plus the initial cumulative infections N - S[0]
equals N - S[final].  On the 2-day trajectory S = [8, 5] with N = 10 the
produced values are [2, 3], whose sum 5 already equals 10 - 5; adding the
initial cumulative infections 10 - 8 overshoots: 5 + 2 = 7 ≠ 5. -/
theorem plot_daily_incidence_sum_cex :
    (plot_daily_incidence [⟨8, 0, 1, 1, 0⟩, ⟨5, 0, 2, 2, 1⟩] 10).1.sum +
      (10 - (([⟨8, 0, 1, 1, 0⟩, ⟨5, 0, 2, 2, 1⟩] : List SEIRDState).getD 0 ⟨0, 0, 0, 0, 0⟩).S) ≠
    10 - (([⟨8, 0, 1, 1, 0⟩, ⟨5, 0, 2, 2, 1⟩] : List SEIRDState).getLast (by simp)).S := by
  norm_num [plot_daily_incidence, np_diff]

/-- C9 as amended: the cumulative sum of the produced new-infection
values alone equals N - S[final] — the produced series already contains
the initial cumulative infections N - S[0] as its day-0 entry, so nothing
needs to be added. -/
theorem plot_daily_incidence_sum_reconstruction
    (sol : List SEIRDState) (initN : ℚ) (h : sol ≠ []) :
    (plot_daily_incidence sol initN).1.sum = initN - (sol.getLast h).S := by
  have hS1 : (plot_daily_incidence sol initN).1 =
      np_diff (0 :: sol.map (fun r => initN - r.S)) := by
    show np_diff (0 :: (sol.map (fun r => r.S)).map (fun s => initN - s)) = _
    rw [List.map_map]
    rfl
  have hmne : sol.map (fun r => initN - r.S) ≠ [] := by simpa using h
  rw [hS1, np_diff_sum, List.getLastD_cons,
    getLastD_irrel _ 0 ((fun r : SEIRDState => initN - r.S) ⟨0, 0, 0, 0, 0⟩) hmne,
    getLastD_map_q (fun r : SEIRDState => initN - r.S) sol ⟨0, 0, 0, 0, 0⟩,
    getLastD_eq_getLast sol ⟨0, 0, 0, 0, 0⟩ h]
  ring

/-- Witness for C9 amended at the 2-day trajectory S = [8, 5], N = 10:
the produced values [2, 3] sum to 5 = 10 - 5. -/
theorem plot_daily_incidence_sum_reconstruction_witness :
    (([⟨8, 0, 1, 1, 0⟩, ⟨5, 0, 2, 2, 1⟩] : List SEIRDState) ≠ []) ∧
    (plot_daily_incidence [⟨8, 0, 1, 1, 0⟩, ⟨5, 0, 2, 2, 1⟩] 10).1.sum =
      10 - (([⟨8, 0, 1, 1, 0⟩, ⟨5, 0, 2, 2, 1⟩] : List SEIRDState).getLast (by simp)).S :=
  ⟨by simp,
    plot_daily_incidence_sum_reconstruction [⟨8, 0, 1, 1, 0⟩, ⟨5, 0, 2, 2, 1⟩] 10
      (by simp)⟩
